import Mathlib

set_option autoImplicit false

/-
Formal model of the homebridge-dingz platform orchestrator
(`src/platform.ts` together with `src/util/internalTypes.ts`,
`src/util/dingzEventBus.ts` and `src/util/errors.ts`): UDP discovery
datagram handling, idempotent accessory registration, device-type
validation, the retry / circuit-breaker resilience policies, and the
HTTP button-callback server.  Definitions are shallow embeddings of the
TypeScript source; theorems settle the specification's claims.
-/

/-- Error kinds thrown by the platform (`src/util/errors.ts`), plus
`brokenCircuit` for cockatiel's `BrokenCircuitError` and `jsTypeError`
for a JavaScript runtime `TypeError` (reading a property of `undefined`). -/
inductive ErrKind where
  | invalidType
  | deviceNotReachable
  | deviceNotImplemented
  | brokenCircuit
  | jsTypeError
  deriving DecidableEq, Repr

/-- The adapter class owning a registered accessory
(`accessoryClass` tag in `internalTypes.ts`). -/
inductive AccessoryClass where
  | dingzDa
  | myStromSwitch
  | myStromLightbulb
  deriving DecidableEq, Repr

/-- ASCII uppercase of one character, as JavaScript
`String.prototype.toUpperCase` acts on the characters appearing here. -/
def jsToUpperChar (c : Char) : Char :=
  if 'a' ≤ c ∧ c ≤ 'z' then Char.ofNat (c.toNat - 32) else c

/-- JavaScript `String.prototype.toUpperCase` (ASCII fragment). -/
def jsToUpperCase (s : String) : String :=
  String.mk (s.data.map jsToUpperChar)

/-- One lowercase hexadecimal digit, as produced by JavaScript
`Number.prototype.toString(16)`. -/
def hexDigitChar (n : Nat) : Char :=
  if n < 10 then Char.ofNat (48 + n) else Char.ofNat (87 + n)

/-- `(b & 0xff).toString(16)`, left-padded with `'0'` to two digits,
as in the loop body of `byteToHexString`. -/
def byteToHexPair (b : Nat) : String :=
  let v := b % 256
  let hex :=
    if v < 16 then String.mk [hexDigitChar v]
    else String.mk [hexDigitChar (v / 16), hexDigitChar (v % 16)]
  if hex.length = 1 then "0" ++ hex else hex

/-- `DingzDaHomebridgePlatform.byteToHexString`: concatenates the two-digit
lowercase hex rendering of every byte, then uppercases the whole string. -/
def byteToHexString (bytes : List Nat) : String :=
  jsToUpperCase (String.join (bytes.map byteToHexPair))

/-- A registration attempt launched by the discovery handler
(one of the `retryWithBreaker.execute(() => this.add...Device(...))` calls). -/
structure RegAttempt where
  kind : AccessoryClass
  address : String
  deviceName : String
  deriving DecidableEq, Repr

/-- Result of one invocation of `datagramMessageHandler`:
the discovery seen-set after the call (`this.discovered`, a map from MAC
string to remote address), the registration attempts triggered, and the
error rethrown past the handler, if any. -/
structure DatagramOutcome where
  discovered : List (String × String)
  registrations : List RegAttempt
  escaped : Option ErrKind
  deriving DecidableEq, Repr

/-- Membership test of the discovery seen-set (`this.discovered.has(mac)`). -/
def seenHas : List (String × String) → String → Bool
  | [], _ => false
  | (k, _) :: rest, mac => if k = mac then true else seenHas rest mac

/-- `const t: DeviceTypes = msg[6]` — the device-type code byte. -/
def datagramType (msg : List Nat) : Nat :=
  msg.getD 6 0

/-- `this.byteToHexString(msg.subarray(0, 5))` — the MAC string the handler
derives (bytes 0–4 only, as the source's `subarray(0, 5)` excludes index 5). -/
def datagramMac (msg : List Nat) : String :=
  byteToHexString (msg.take 5)

/-- The `try` block of `datagramMessageHandler`: either the new seen-set and
the triggered registration attempts, or the error thrown.
Note the button branch throws before `this.discovered.set(mac, remoteInfo)`
runs. -/
def datagramTryBody (discovered : List (String × String)) (msg : List Nat)
    (remoteAddress : String) :
    Except ErrKind (List (String × String) × List RegAttempt) :=
  if msg.length ≠ 8 then
    Except.error ErrKind.deviceNotImplemented
  else
    let t := datagramType msg
    let mac := datagramMac msg
    if seenHas discovered mac then
      Except.ok (discovered, [])
    else if t = 103 ∨ t = 104 then
      Except.error ErrKind.deviceNotImplemented
    else if t = 105 then
      Except.ok ((mac, remoteAddress) :: discovered,
        [⟨AccessoryClass.myStromLightbulb, remoteAddress,
          "Auto-Discovered MyStrom LED Strip"⟩])
    else if t = 102 then
      Except.ok ((mac, remoteAddress) :: discovered,
        [⟨AccessoryClass.myStromLightbulb, remoteAddress,
          "Auto-Discovered MyStrom Lightbulb"⟩])
    else if t = 101 ∨ t = 106 ∨ t = 107 then
      Except.ok ((mac, remoteAddress) :: discovered,
        [⟨AccessoryClass.myStromSwitch, remoteAddress,
          "Auto-Discovered MyStromSwitch"⟩])
    else if t = 108 then
      Except.ok ((mac, remoteAddress) :: discovered,
        [⟨AccessoryClass.dingzDa, remoteAddress, "Auto-Discovered Dingz"⟩])
    else
      Except.ok ((mac, remoteAddress) :: discovered, [])

/-- `datagramMessageHandler`: runs the `try` body; the `catch` clause logs a
`DeviceNotImplementedError` (degrading gracefully) and rethrows anything else. -/
def datagramMessageHandler (discovered : List (String × String))
    (msg : List Nat) (remoteAddress : String) : DatagramOutcome :=
  match datagramTryBody discovered msg remoteAddress with
  | Except.ok (d, regs) => ⟨d, regs, none⟩
  | Except.error e =>
    if e = ErrKind.deviceNotImplemented then ⟨discovered, [], none⟩
    else ⟨discovered, [], some e⟩

/-- C5: any datagram whose length is not exactly 8 bytes is dropped: the
seen-set is unchanged, no registration attempt is triggered, and no exception
escapes the handler. -/
theorem datagram_length_guard (discovered : List (String × String))
    (msg : List Nat) (addr : String) (h : msg.length ≠ 8) :
    datagramMessageHandler discovered msg addr = ⟨discovered, [], none⟩ := by
  simp [datagramMessageHandler, datagramTryBody, h]

/-- Witness for C5 at a concrete 7-byte datagram. -/
theorem datagram_length_guard_witness :
    ([1, 2, 3, 4, 5, 6, 7] : List Nat).length ≠ 8 ∧
      datagramMessageHandler [] [1, 2, 3, 4, 5, 6, 7] "192.168.1.9" =
        ⟨[], [], none⟩ :=
  ⟨by decide, datagram_length_guard [] [1, 2, 3, 4, 5, 6, 7] "192.168.1.9"
    (by decide)⟩

/-- The 8-byte broadcast datagram with MAC bytes AA BB CC DD EE FF and
type code 108 (DINGZ). -/
def dingzDatagram : List Nat := [0xAA, 0xBB, 0xCC, 0xDD, 0xEE, 0xFF, 108, 0]

/-- C6: the handler derives the MAC from `msg.subarray(0, 5)` — bytes 0–4
only — so for the datagram AA BB CC DD EE FF 6C 00 it records "AABBCCDDEE",
while decoding all six MAC bytes (as the format prescribes) yields
"AABBCCDDEEFF". -/
theorem mac_decoded_from_five_bytes :
    datagramMac dingzDatagram = "AABBCCDDEE" ∧
      byteToHexString (dingzDatagram.take 6) = "AABBCCDDEEFF" ∧
      (datagramMessageHandler [] dingzDatagram "192.168.1.9").discovered =
        [("AABBCCDDEE", "192.168.1.9")] := by
  refine ⟨by decide, by decide, by decide⟩

/-- First datagram of the C7 counterexample: MAC 01 02 03 04 05 06, type
code 104 (MYSTROM_BUTTON, unsupported: throws before the seen-set update). -/
def buttonDatagram : List Nat := [1, 2, 3, 4, 5, 6, 104, 0]

/-- Second datagram of the C7 counterexample: identical MAC bytes, type
code 108 (DINGZ). -/
def sameMacDingzDatagram : List Nat := [1, 2, 3, 4, 5, 6, 108, 0]

/-- C7 counterexample: two datagrams with identical MAC bytes where the
FIRST triggers no registration attempt (button type: the handler throws
before recording the MAC) and the SECOND does trigger one — refuting
"only the first triggers a registration attempt; the second is dropped". -/
theorem discovery_dedup_counterexample :
    (datagramMessageHandler [] buttonDatagram "192.168.1.9").registrations
        = [] ∧
      (datagramMessageHandler
        (datagramMessageHandler [] buttonDatagram "192.168.1.9").discovered
        sameMacDingzDatagram "192.168.1.9").registrations =
        [⟨AccessoryClass.dingzDa, "192.168.1.9", "Auto-Discovered Dingz"⟩] := by
  refine ⟨by decide, by decide⟩

/-- C7 (amended): if the first datagram's type code is not one of the
unsupported button codes 103/104 (whose processing throws before the MAC is
recorded), then after handling it any second datagram with identical MAC
bytes is dropped silently: no registration attempt and no seen-set change. -/
theorem discovery_dedup (s : List (String × String)) (d1 d2 : List Nat)
    (a1 a2 : String) (h1 : d1.length = 8) (h2 : d2.length = 8)
    (hmac : d1.take 6 = d2.take 6)
    (ht : ¬(datagramType d1 = 103 ∨ datagramType d1 = 104)) :
    (datagramMessageHandler
        (datagramMessageHandler s d1 a1).discovered d2 a2).registrations = [] ∧
      (datagramMessageHandler
        (datagramMessageHandler s d1 a1).discovered d2 a2).discovered =
        (datagramMessageHandler s d1 a1).discovered := by
  have htake : d2.take 5 = d1.take 5 := by
    have h5 : (d1.take 6).take 5 = (d2.take 6).take 5 := by rw [hmac]
    simpa [List.take_take] using h5.symm
  have hmac5 : datagramMac d2 = datagramMac d1 := by
    simp [datagramMac, htake]
  by_cases hseen : seenHas s (datagramMac d1)
  · -- first datagram already suppressed: seen-set unchanged, still contains mac
    have hfirst : datagramMessageHandler s d1 a1 = ⟨s, [], none⟩ := by
      simp [datagramMessageHandler, datagramTryBody, h1, hseen]
    rw [hfirst]
    simp [datagramMessageHandler, datagramTryBody, h2, hmac5, hseen]
  · -- fresh MAC: every non-button branch records (mac, a1) in the seen-set
    have hfirst : (datagramMessageHandler s d1 a1).discovered =
        (datagramMac d1, a1) :: s := by
      simp only [datagramMessageHandler, datagramTryBody, h1]
      by_cases h105 : datagramType d1 = 105
      · simp [hseen, ht, h105]
      · by_cases h102 : datagramType d1 = 102
        · simp [hseen, ht, h105, h102]
        · by_cases hsw : datagramType d1 = 101 ∨ datagramType d1 = 106 ∨
              datagramType d1 = 107
          · simp [hseen, ht, h105, h102, hsw]
          · by_cases h108 : datagramType d1 = 108
            · simp [hseen, ht, h105, h102, hsw, h108]
            · simp [hseen, ht, h105, h102, hsw, h108]
    rw [hfirst]
    have hseen2 : seenHas ((datagramMac d1, a1) :: s) (datagramMac d1) := by
      simp [seenHas]
    simp [datagramMessageHandler, datagramTryBody, h2, hmac5, hseen2]

/-- Witness for the amended C7: a dingz broadcast followed by a switch
broadcast with identical MAC bytes; the second is dropped. -/
theorem discovery_dedup_witness :
    (sameMacDingzDatagram.length = 8 ∧
        ([1, 2, 3, 4, 5, 6, 106, 0] : List Nat).length = 8 ∧
        sameMacDingzDatagram.take 6 =
          ([1, 2, 3, 4, 5, 6, 106, 0] : List Nat).take 6 ∧
        ¬(datagramType sameMacDingzDatagram = 103 ∨
          datagramType sameMacDingzDatagram = 104)) ∧
      (datagramMessageHandler
        (datagramMessageHandler [] sameMacDingzDatagram "192.168.1.9").discovered
        [1, 2, 3, 4, 5, 6, 106, 0] "192.168.1.9").registrations = [] :=
  ⟨⟨by decide, by decide, by decide, by decide⟩,
    (discovery_dedup [] sameMacDingzDatagram [1, 2, 3, 4, 5, 6, 106, 0]
      "192.168.1.9" "192.168.1.9" (by decide) (by decide) (by decide)
      (by decide)).1⟩

/-- `DingzDeviceInfo` (`internalTypes.ts`), restricted to the fields the
platform's registration flow reads. -/
structure DingzDeviceInfo where
  type : String
  puck_hw_model : Option String
  deriving DecidableEq, Repr

/-- `DingzDevices`: the JSON object returned by `/api/v1/device`, a mapping
from MAC-address keys to device descriptors, in key order. -/
abbrev DingzDevices := List (String × DingzDeviceInfo)

/-- The `type` field of a myStrom info response: numeric code, string code,
or absent (`undefined`, as on V1 switches). -/
inductive MSType where
  | num (n : Nat)
  | str (s : String)
  | undef
  deriving DecidableEq, Repr

/-- `MyStromDeviceInfo` (`internalTypes.ts`), restricted to the fields the
registration flow reads. -/
structure MyStromDeviceInfo where
  mac : String
  type : MSType
  name : Option String
  deriving DecidableEq, Repr

/-- The `DeviceInfo` record stored in `accessory.context.device`. -/
structure DeviceInfo where
  name : String
  address : String
  mac : String
  token : Option String
  model : String
  hwInfo : Option (DingzDeviceInfo ⊕ MyStromDeviceInfo)
  accessoryClass : AccessoryClass
  deriving DecidableEq, Repr

/-- A registered accessory handle: the platform accessory together with the
adapter constructed for it. -/
structure AccessoryHandle where
  uuid : String
  displayName : String
  device : DeviceInfo
  deriving DecidableEq, Repr

/-- `this.api.hap.uuid.generate`: an external deterministic content-addressed
digest of its input string; modelled as the string itself, which preserves
the two properties the platform relies on (determinism, injectivity). -/
def uuidGenerate (s : String) : String := s

/-- `this.accessories[uuid]` property lookup. -/
def regLookup : List (String × AccessoryHandle) → String → Option AccessoryHandle
  | [], _ => none
  | (k, v) :: rest, u => if k = u then some v else regLookup rest u

/-- Number of registry entries stored under a given key. -/
def regCount : List (String × AccessoryHandle) → String → Nat
  | [], _ => 0
  | (k, _) :: rest, u => (if k = u then 1 else 0) + regCount rest u

/-- Events published on the `DingzEventBus`.  `btnPress` carries the three
string arguments positionally, exactly as passed to `emit`; `updateInfo`
carries the existing accessory handle, identified here by its uuid. -/
inductive EBEvent where
  | updateInfo (accessoryUuid : String)
  | btnPress (pos1 pos2 pos3 : String)
  | stateUpdate
  deriving DecidableEq, Repr

/-- Decidable equality of `Except` results. -/
instance exceptDecEq {ε α : Type} [DecidableEq ε] [DecidableEq α] :
    DecidableEq (Except ε α) := fun x y =>
  match x, y with
  | Except.error a, Except.error b =>
    if h : a = b then isTrue (by rw [h])
    else isFalse (by intro hc; cases hc; exact h rfl)
  | Except.ok a, Except.ok b =>
    if h : a = b then isTrue (by rw [h])
    else isFalse (by intro hc; cases hc; exact h rfl)
  | Except.error _, Except.ok _ => isFalse (by intro hc; cases hc)
  | Except.ok _, Except.error _ => isFalse (by intro hc; cases hc)

/-- Outcome of one registration continuation (the `.then((data) => ...)`
callback of an `add...Device` method): the accessory registry afterwards,
the callback's own result (`.ok none` models returning `undefined`), the
Event-Bus events emitted, the uuids whose handle's `identify()` was invoked,
and the uuids for which a NEW accessory handle was constructed. -/
structure RegOutcome where
  accessories : List (String × AccessoryHandle)
  result : Except ErrKind (Option Bool)
  emitted : List EBEvent
  identified : List String
  constructed : List String
  deriving DecidableEq, Repr

/-- The `.then` continuation of `addDingzDevice`, applied to the registry
state and the resolver's data (`undefined` modelled as `none`). -/
def dingzContinuation (accessories : List (String × AccessoryHandle))
    (address name : String) (token : Option String)
    (data : Option DingzDevices) : RegOutcome :=
  match data with
  | none => ⟨accessories, Except.ok none, [], [], []⟩
  | some dingzDevices =>
    match dingzDevices with
    | [] =>
      -- `Object.keys(...)[0]` is `undefined`, so reading `.type` of
      -- `dingzDevices[undefined]` throws a runtime TypeError
      ⟨accessories, Except.error ErrKind.jsTypeError, [], [], []⟩
    | (mac, info) :: _ =>
      if info.type ≠ "dingz" then
        ⟨accessories, Except.error ErrKind.invalidType, [], [], []⟩
      else
        let deviceInfo : DeviceInfo :=
          { name := name, address := address, mac := jsToUpperCase mac,
            token := token, model := info.puck_hw_model.getD "DingZ",
            hwInfo := some (Sum.inl info),
            accessoryClass := AccessoryClass.dingzDa }
        let uuid := uuidGenerate deviceInfo.mac
        match regLookup accessories uuid with
        | none =>
          ⟨(uuid, ⟨uuid, deviceInfo.name, deviceInfo⟩) :: accessories,
            Except.ok (some true), [], [], [uuid]⟩
        | some _ =>
          -- already initialized: UPDATE_INFO event, then `identify()`
          ⟨accessories, Except.ok (some true),
            [EBEvent.updateInfo uuid], [uuid], []⟩

/-- The `MYSTROM_SWITCH_TYPES` lookup table, indexed by the raw `type` field
(JavaScript coerces a numeric property key to its decimal string). -/
def MYSTROM_SWITCH_TYPES : MSType → Option String
  | MSType.str "WS2" => some "CH v2"
  | MSType.num 106 => some "CH v2"
  | MSType.str "106" => some "CH v2"
  | MSType.str "WSEU" => some "EU"
  | MSType.num 107 => some "EU"
  | MSType.str "107" => some "EU"
  | _ => none

/-- The `.then` continuation of `addMyStromSwitchDevice`. -/
def myStromSwitchContinuation (accessories : List (String × AccessoryHandle))
    (address name : String) (token : Option String)
    (data : Option MyStromDeviceInfo) : RegOutcome :=
  match data with
  | none => ⟨accessories, Except.ok none, [], [], []⟩
  | some info =>
    if info.type ≠ MSType.str "WS2" ∧ info.type ≠ MSType.num 106 ∧
        info.type ≠ MSType.str "WSEU" ∧ info.type ≠ MSType.num 107 ∧
        info.type ≠ MSType.undef then
      ⟨accessories, Except.error ErrKind.invalidType, [], [], []⟩
    else
      let deviceInfo : DeviceInfo :=
        { name := info.name.getD name, address := address,
          mac := jsToUpperCase info.mac, token := token,
          model := (MYSTROM_SWITCH_TYPES info.type).getD "CH v1",
          hwInfo := some (Sum.inr info),
          accessoryClass := AccessoryClass.myStromSwitch }
      let uuid := uuidGenerate deviceInfo.mac
      match regLookup accessories uuid with
      | none =>
        ⟨(uuid, ⟨uuid, deviceInfo.name, deviceInfo⟩) :: accessories,
          Except.ok (some true), [], [], [uuid]⟩
      | some _ =>
        -- already initialized: `identify()` only, no update-info event
        ⟨accessories, Except.ok (some true), [], [uuid], []⟩

/-- The `.then` continuation of `addMyStromLightbulbDevice`. -/
def myStromLightbulbContinuation
    (accessories : List (String × AccessoryHandle))
    (address name : String) (token : Option String)
    (data : Option MyStromDeviceInfo) : RegOutcome :=
  match data with
  | none => ⟨accessories, Except.ok none, [], [], []⟩
  | some info =>
    if info.type ≠ MSType.num 102 ∧ info.type ≠ MSType.num 105 ∧
        info.type ≠ MSType.str "WRS" then
      ⟨accessories, Except.error ErrKind.invalidType, [], [], []⟩
    else
      let deviceInfo : DeviceInfo :=
        { name := info.name.getD name, address := address,
          mac := jsToUpperCase info.mac, token := token, model := "102",
          hwInfo := some (Sum.inr info),
          accessoryClass := AccessoryClass.myStromLightbulb }
      let uuid := uuidGenerate deviceInfo.mac
      match regLookup accessories uuid with
      | none =>
        ⟨(uuid, ⟨uuid, deviceInfo.name, deviceInfo⟩) :: accessories,
          Except.ok (some true), [], [], [uuid]⟩
      | some _ =>
        -- already initialized: `identify()` only, no update-info event
        ⟨accessories, Except.ok (some true), [], [uuid], []⟩

/-- A JavaScript `Promise` object together with its eventual outcome. -/
structure JSPromise (α : Type) where
  eventual : α

/-- JavaScript truthiness of a `Promise` value: an object is always truthy. -/
def JSPromise.truthy {α : Type} (_p : JSPromise α) : Bool :=
  true

/-- The synchronous body of `addDingzDevice`: builds the `success` promise
from the fetch-then-continuation chain, tests `if (!success)` and returns
`true`.  `resolved` is the data the resolver will eventually yield. -/
def addDingzDevice (accessories : List (String × AccessoryHandle))
    (address name : String) (token : Option String)
    (resolved : Option DingzDevices) : Except ErrKind Bool :=
  let success : JSPromise RegOutcome :=
    ⟨dingzContinuation accessories address name token resolved⟩
  if ¬ success.truthy then Except.error ErrKind.deviceNotReachable
  else Except.ok true

/-- The synchronous body of `addMyStromSwitchDevice`. -/
def addMyStromSwitchDevice (accessories : List (String × AccessoryHandle))
    (address name : String) (token : Option String)
    (resolved : Option MyStromDeviceInfo) : Except ErrKind Bool :=
  let success : JSPromise RegOutcome :=
    ⟨myStromSwitchContinuation accessories address name token resolved⟩
  if ¬ success.truthy then Except.error ErrKind.deviceNotReachable
  else Except.ok true

/-- Running the dingz registration continuation twice with the same resolver
data, the second run starting from the first run's registry. -/
def dingzTwice (acc : List (String × AccessoryHandle)) (addr nm : String)
    (tok : Option String) (d : Option DingzDevices) : RegOutcome :=
  dingzContinuation (dingzContinuation acc addr nm tok d).accessories
    addr nm tok d

/-- Running the myStrom switch registration continuation twice. -/
def myStromSwitchTwice (acc : List (String × AccessoryHandle))
    (addr nm : String) (tok : Option String)
    (d : Option MyStromDeviceInfo) : RegOutcome :=
  myStromSwitchContinuation
    (myStromSwitchContinuation acc addr nm tok d).accessories addr nm tok d

/-- Running the myStrom lightbulb registration continuation twice. -/
def myStromLightbulbTwice (acc : List (String × AccessoryHandle))
    (addr nm : String) (tok : Option String)
    (d : Option MyStromDeviceInfo) : RegOutcome :=
  myStromLightbulbContinuation
    (myStromLightbulbContinuation acc addr nm tok d).accessories addr nm tok d

theorem regLookup_cons_self (u : String) (h : AccessoryHandle)
    (l : List (String × AccessoryHandle)) :
    regLookup ((u, h) :: l) u = some h := by
  simp [regLookup]

theorem regCount_eq_zero (l : List (String × AccessoryHandle)) (u : String)
    (hl : regLookup l u = none) : regCount l u = 0 := by
  induction l with
  | nil => rfl
  | cons p rest ih =>
    obtain ⟨k, v⟩ := p
    by_cases hk : k = u
    · simp [regLookup, hk] at hl
    · simp only [regLookup, if_neg hk] at hl
      simp [regCount, hk, ih hl]

theorem regCount_cons_self (u : String) (h : AccessoryHandle)
    (l : List (String × AccessoryHandle)) :
    regCount ((u, h) :: l) u = 1 + regCount l u := by
  simp [regCount]

theorem switch_type_ok (t : MSType)
    (hv : t = MSType.str "WS2" ∨ t = MSType.num 106 ∨ t = MSType.str "WSEU" ∨
      t = MSType.num 107 ∨ t = MSType.undef) :
    ¬(t ≠ MSType.str "WS2" ∧ t ≠ MSType.num 106 ∧ t ≠ MSType.str "WSEU" ∧
      t ≠ MSType.num 107 ∧ t ≠ MSType.undef) := by
  rcases hv with h | h | h | h | h <;> subst h <;> simp

theorem bulb_type_ok (t : MSType)
    (hv : t = MSType.num 102 ∨ t = MSType.num 105 ∨ t = MSType.str "WRS") :
    ¬(t ≠ MSType.num 102 ∧ t ≠ MSType.num 105 ∧ t ≠ MSType.str "WRS") := by
  rcases hv with h | h | h <;> subst h <;> simp

theorem dingzTwice_spec (acc : List (String × AccessoryHandle))
    (addr nm : String) (tok : Option String) (mac : String)
    (info : DingzDeviceInfo) (rest : DingzDevices)
    (htype : info.type = "dingz")
    (hfresh : regLookup acc (uuidGenerate (jsToUpperCase mac)) = none) :
    (dingzTwice acc addr nm tok (some ((mac, info) :: rest))).accessories =
        (dingzContinuation acc addr nm tok
          (some ((mac, info) :: rest))).accessories ∧
      regCount
          (dingzTwice acc addr nm tok
            (some ((mac, info) :: rest))).accessories
          (uuidGenerate (jsToUpperCase mac)) = 1 ∧
      (dingzTwice acc addr nm tok (some ((mac, info) :: rest))).constructed
          = [] ∧
      (dingzTwice acc addr nm tok (some ((mac, info) :: rest))).identified
          = [uuidGenerate (jsToUpperCase mac)] ∧
      (dingzTwice acc addr nm tok (some ((mac, info) :: rest))).emitted
          = [EBEvent.updateInfo (uuidGenerate (jsToUpperCase mac))] := by
  have hcount := regCount_eq_zero acc _ hfresh
  simp [dingzTwice, dingzContinuation, htype, hfresh, regLookup, regCount,
    hcount]

theorem switchTwice_spec (acc : List (String × AccessoryHandle))
    (addr nm : String) (tok : Option String) (info : MyStromDeviceInfo)
    (hv : info.type = MSType.str "WS2" ∨ info.type = MSType.num 106 ∨
      info.type = MSType.str "WSEU" ∨ info.type = MSType.num 107 ∨
      info.type = MSType.undef)
    (hfresh : regLookup acc (uuidGenerate (jsToUpperCase info.mac)) = none) :
    (myStromSwitchTwice acc addr nm tok (some info)).accessories =
        (myStromSwitchContinuation acc addr nm tok (some info)).accessories ∧
      regCount (myStromSwitchTwice acc addr nm tok (some info)).accessories
          (uuidGenerate (jsToUpperCase info.mac)) = 1 ∧
      (myStromSwitchTwice acc addr nm tok (some info)).constructed = [] ∧
      (myStromSwitchTwice acc addr nm tok (some info)).identified =
        [uuidGenerate (jsToUpperCase info.mac)] ∧
      (myStromSwitchTwice acc addr nm tok (some info)).emitted = [] := by
  have hcount := regCount_eq_zero acc _ hfresh
  have hguard := switch_type_ok info.type hv
  simp [myStromSwitchTwice, myStromSwitchContinuation, if_neg hguard, hfresh,
    regLookup, regCount, hcount]

theorem bulbTwice_spec (acc : List (String × AccessoryHandle))
    (addr nm : String) (tok : Option String) (info : MyStromDeviceInfo)
    (hv : info.type = MSType.num 102 ∨ info.type = MSType.num 105 ∨
      info.type = MSType.str "WRS")
    (hfresh : regLookup acc (uuidGenerate (jsToUpperCase info.mac)) = none) :
    (myStromLightbulbTwice acc addr nm tok (some info)).accessories =
        (myStromLightbulbContinuation acc addr nm tok
          (some info)).accessories ∧
      regCount
          (myStromLightbulbTwice acc addr nm tok (some info)).accessories
          (uuidGenerate (jsToUpperCase info.mac)) = 1 ∧
      (myStromLightbulbTwice acc addr nm tok (some info)).constructed = [] ∧
      (myStromLightbulbTwice acc addr nm tok (some info)).identified =
        [uuidGenerate (jsToUpperCase info.mac)] ∧
      (myStromLightbulbTwice acc addr nm tok (some info)).emitted = [] := by
  have hcount := regCount_eq_zero acc _ hfresh
  have hguard := bulb_type_ok info.type hv
  simp [myStromLightbulbTwice, myStromLightbulbContinuation, if_neg hguard,
    hfresh, regLookup, regCount, hcount]

/-- C1 (amended): running a registration flow twice for the same MAC-derived
identity leaves exactly one registry entry; the second run takes the
already-present path, constructs no second accessory handle and invokes the
existing handle's identify action.  Only the dingz flow additionally
publishes an update-info event on the Event Bus; the myStrom switch and
lightbulb flows publish no event on the already-present path. -/
theorem registration_idempotent :
    (∀ (acc : List (String × AccessoryHandle)) (addr nm : String)
        (tok : Option String) (mac : String) (info : DingzDeviceInfo)
        (rest : DingzDevices),
      info.type = "dingz" →
      regLookup acc (uuidGenerate (jsToUpperCase mac)) = none →
      (dingzTwice acc addr nm tok (some ((mac, info) :: rest))).accessories =
          (dingzContinuation acc addr nm tok
            (some ((mac, info) :: rest))).accessories ∧
        regCount
            (dingzTwice acc addr nm tok
              (some ((mac, info) :: rest))).accessories
            (uuidGenerate (jsToUpperCase mac)) = 1 ∧
        (dingzTwice acc addr nm tok (some ((mac, info) :: rest))).constructed
            = [] ∧
        (dingzTwice acc addr nm tok (some ((mac, info) :: rest))).identified
            = [uuidGenerate (jsToUpperCase mac)] ∧
        (dingzTwice acc addr nm tok (some ((mac, info) :: rest))).emitted
            = [EBEvent.updateInfo (uuidGenerate (jsToUpperCase mac))]) ∧
    (∀ (acc : List (String × AccessoryHandle)) (addr nm : String)
        (tok : Option String) (info : MyStromDeviceInfo),
      (info.type = MSType.str "WS2" ∨ info.type = MSType.num 106 ∨
        info.type = MSType.str "WSEU" ∨ info.type = MSType.num 107 ∨
        info.type = MSType.undef) →
      regLookup acc (uuidGenerate (jsToUpperCase info.mac)) = none →
      (myStromSwitchTwice acc addr nm tok (some info)).accessories =
          (myStromSwitchContinuation acc addr nm tok
            (some info)).accessories ∧
        regCount (myStromSwitchTwice acc addr nm tok (some info)).accessories
            (uuidGenerate (jsToUpperCase info.mac)) = 1 ∧
        (myStromSwitchTwice acc addr nm tok (some info)).constructed = [] ∧
        (myStromSwitchTwice acc addr nm tok (some info)).identified =
          [uuidGenerate (jsToUpperCase info.mac)] ∧
        (myStromSwitchTwice acc addr nm tok (some info)).emitted = []) ∧
    (∀ (acc : List (String × AccessoryHandle)) (addr nm : String)
        (tok : Option String) (info : MyStromDeviceInfo),
      (info.type = MSType.num 102 ∨ info.type = MSType.num 105 ∨
        info.type = MSType.str "WRS") →
      regLookup acc (uuidGenerate (jsToUpperCase info.mac)) = none →
      (myStromLightbulbTwice acc addr nm tok (some info)).accessories =
          (myStromLightbulbContinuation acc addr nm tok
            (some info)).accessories ∧
        regCount
            (myStromLightbulbTwice acc addr nm tok (some info)).accessories
            (uuidGenerate (jsToUpperCase info.mac)) = 1 ∧
        (myStromLightbulbTwice acc addr nm tok (some info)).constructed
            = [] ∧
        (myStromLightbulbTwice acc addr nm tok (some info)).identified =
          [uuidGenerate (jsToUpperCase info.mac)] ∧
        (myStromLightbulbTwice acc addr nm tok (some info)).emitted = []) :=
  ⟨fun acc addr nm tok mac info rest htype hfresh =>
      dingzTwice_spec acc addr nm tok mac info rest htype hfresh,
    fun acc addr nm tok info hv hfresh =>
      switchTwice_spec acc addr nm tok info hv hfresh,
    fun acc addr nm tok info hv hfresh =>
      bulbTwice_spec acc addr nm tok info hv hfresh⟩

/-- Concrete dingz descriptor for the C1 witness. -/
def dingzInfoEx : DingzDeviceInfo := ⟨"dingz", some "DZ1"⟩

/-- Concrete myStrom switch descriptor (type code 106, i.e. CH v2). -/
def swInfoEx : MyStromDeviceInfo := ⟨"30aea4aabbcc", MSType.num 106, some "S"⟩

/-- Concrete myStrom bulb descriptor (type code 102). -/
def bulbInfoEx : MyStromDeviceInfo := ⟨"30aea4ddeeff", MSType.num 102, none⟩

/-- Witness for C1 at concrete devices of each of the three flows. -/
theorem registration_idempotent_witness :
    ((dingzInfoEx.type = "dingz" ∧
        regLookup [] (uuidGenerate (jsToUpperCase "f0cafef0ca71")) = none) ∧
      (dingzTwice [] "192.168.1.2" "D" none
          (some [("f0cafef0ca71", dingzInfoEx)])).identified =
        ["F0CAFEF0CA71"]) ∧
    ((swInfoEx.type = MSType.num 106 ∧
        regLookup [] (uuidGenerate (jsToUpperCase swInfoEx.mac)) = none) ∧
      (myStromSwitchTwice [] "192.168.1.3" "S" none (some swInfoEx)).emitted
        = []) ∧
    ((bulbInfoEx.type = MSType.num 102 ∧
        regLookup [] (uuidGenerate (jsToUpperCase bulbInfoEx.mac)) = none) ∧
      (myStromLightbulbTwice [] "192.168.1.4" "B" none
          (some bulbInfoEx)).constructed = []) :=
  ⟨⟨⟨rfl, rfl⟩, by
      have h := (registration_idempotent.1 [] "192.168.1.2" "D" none
        "f0cafef0ca71" dingzInfoEx [] rfl rfl).2.2.2.1
      simpa using h⟩,
    ⟨⟨rfl, rfl⟩,
      (registration_idempotent.2.1 [] "192.168.1.3" "S" none swInfoEx
        (Or.inr (Or.inl rfl)) rfl).2.2.2.2⟩,
    ⟨⟨rfl, rfl⟩,
      (registration_idempotent.2.2 [] "192.168.1.4" "B" none bulbInfoEx
        (Or.inl rfl) rfl).2.2.1⟩⟩

/-- C1 counterexample: for the myStrom switch flow the second, already-present
registration run invokes identify but publishes NO update-info event on the
Event Bus, refuting the claim that every device's second run publishes one. -/
theorem second_run_no_update_info_event :
    (myStromSwitchTwice [] "192.168.1.3" "S" none (some swInfoEx)).identified
        = ["30AEA4AABBCC"] ∧
      (myStromSwitchTwice [] "192.168.1.3" "S" none (some swInfoEx)).emitted
        = [] := by
  refine ⟨by decide, by decide⟩

/-- C2: a resolved descriptor whose type lies outside the accepted set of the
entry point's expected family makes the registration continuation fail with
InvalidTypeError, leaving the accessory registry unchanged, constructing no
handle and emitting no event — for every entry point (lightbulb: accepted
102, 105, "WRS"; switch: accepted "WS2", 106, "WSEU", 107, undefined;
dingz: accepted "dingz"). -/
theorem type_validation_rejects :
    (∀ (acc : List (String × AccessoryHandle)) (addr nm : String)
        (tok : Option String) (info : MyStromDeviceInfo),
      info.type ≠ MSType.num 102 → info.type ≠ MSType.num 105 →
      info.type ≠ MSType.str "WRS" →
      myStromLightbulbContinuation acc addr nm tok (some info) =
        ⟨acc, Except.error ErrKind.invalidType, [], [], []⟩) ∧
    (∀ (acc : List (String × AccessoryHandle)) (addr nm : String)
        (tok : Option String) (info : MyStromDeviceInfo),
      info.type ≠ MSType.str "WS2" → info.type ≠ MSType.num 106 →
      info.type ≠ MSType.str "WSEU" → info.type ≠ MSType.num 107 →
      info.type ≠ MSType.undef →
      myStromSwitchContinuation acc addr nm tok (some info) =
        ⟨acc, Except.error ErrKind.invalidType, [], [], []⟩) ∧
    (∀ (acc : List (String × AccessoryHandle)) (addr nm : String)
        (tok : Option String) (mac : String) (info : DingzDeviceInfo)
        (rest : DingzDevices),
      info.type ≠ "dingz" →
      dingzContinuation acc addr nm tok (some ((mac, info) :: rest)) =
        ⟨acc, Except.error ErrKind.invalidType, [], [], []⟩) := by
  refine ⟨?_, ?_, ?_⟩
  · intro acc addr nm tok info h102 h105 hWRS
    simp [myStromLightbulbContinuation, h102, h105, hWRS]
  · intro acc addr nm tok info hWS2 h106 hWSEU h107 hundef
    simp [myStromSwitchContinuation, hWS2, h106, hWSEU, h107, hundef]
  · intro acc addr nm tok mac info rest htype
    simp [dingzContinuation, htype]

/-- Descriptor of the C2 witness: type 107 (a switch code) presented to the
lightbulb entry point. -/
def switchType107Info : MyStromDeviceInfo :=
  ⟨"30aea4070707", MSType.num 107, none⟩

/-- Witness for C2: type 107 at the lightbulb entry point is rejected with
InvalidTypeError and the registry stays empty. -/
theorem type_validation_rejects_witness :
    (switchType107Info.type ≠ MSType.num 102 ∧
        switchType107Info.type ≠ MSType.num 105 ∧
        switchType107Info.type ≠ MSType.str "WRS") ∧
      myStromLightbulbContinuation [] "192.168.1.5" "B" none
          (some switchType107Info) =
        ⟨[], Except.error ErrKind.invalidType, [], [], []⟩ :=
  ⟨⟨by decide, by decide, by decide⟩,
    type_validation_rejects.1 [] "192.168.1.5" "B" none switchType107Info
      (by decide) (by decide) (by decide)⟩

/-- C4 (divergence witness): the synchronous `add...Device` entry points
report success even when the resolver yields no data.  `success` holds a
Promise object, which is always truthy in JavaScript, so `if (!success)` is
dead code, `DeviceNotReachableError` is never thrown, and the caller receives
`true` while the continuation just returns `undefined`. -/
theorem no_data_reports_success :
    ∀ (acc : List (String × AccessoryHandle)) (addr nm : String)
      (tok : Option String),
      addDingzDevice acc addr nm tok none = Except.ok true ∧
        (dingzContinuation acc addr nm tok none).result = Except.ok none ∧
        addMyStromSwitchDevice acc addr nm tok none = Except.ok true ∧
        (myStromSwitchContinuation acc addr nm tok none).result =
          Except.ok none ∧
        (∀ resolved, addDingzDevice acc addr nm tok resolved =
          Except.ok true) := by
  intro acc addr nm tok
  exact ⟨rfl, rfl, rfl, rfl, fun _ => rfl⟩

/-- `new ConsecutiveBreaker(5)`: consecutive failures before opening. -/
def breakerThreshold : Nat := 5

/-- The breaker's cool-down window in ms: `circuitBreaker(10 * 1000, ...)`. -/
def breakerHalfOpenAfter : Nat := 10 * 1000

/-- `maxDelay` of the retry policy's exponential backoff, in ms. -/
def retryMaxDelay : Nat := 10 * 1000

/-- `maxAttempts` of the retry policy's exponential backoff. -/
def retryMaxAttempts : Nat := 20

/-- `Policy.handleAll()`: both the retry and the breaker policy treat every
error kind as handled. -/
def handleAll : ErrKind → Bool := fun _ => true

/-- Circuit-breaker state: closed with a consecutive-failure count, or open
since `openedAt` (half-open is modelled as the trial attempt an open breaker
admits once the cool-down has elapsed). -/
inductive BreakerState where
  | closed (consecutiveFailures : Nat)
  | opened (openedAt : Nat)
  deriving DecidableEq, Repr

/-- One `circuitBreaker.execute(op)` call at time `now`.  `opResult` is the
outcome `op` would produce if invoked (`none` = success).  Returns whether
`op` was actually invoked, the call's result (`some ErrKind.brokenCircuit`
models a `BrokenCircuitError` rejection while open), and the next state. -/
def breakerExecute (s : BreakerState) (now : Nat)
    (opResult : Option ErrKind) : Bool × Option ErrKind × BreakerState :=
  match s with
  | BreakerState.closed fails =>
    match opResult with
    | none => (true, none, BreakerState.closed 0)
    | some e =>
      if breakerThreshold ≤ fails + 1 then
        (true, some e, BreakerState.opened now)
      else
        (true, some e, BreakerState.closed (fails + 1))
  | BreakerState.opened t0 =>
    if now < t0 + breakerHalfOpenAfter then
      (false, some ErrKind.brokenCircuit, BreakerState.opened t0)
    else
      match opResult with
      | none => (true, none, BreakerState.closed 0)
      | some e => (true, some e, BreakerState.opened now)

/-- Invocation count, final result and final breaker state of one composed
`retryWithBreaker.execute(op)` run. -/
structure ComposedRun where
  invocations : Nat
  result : Option ErrKind
  state : BreakerState
  deriving DecidableEq, Repr

/-- `Policy.wrap(retry, circuitBreaker).execute(op)`: attempt the
breaker-wrapped operation at time `t`; on a failure the retry policy
handles, retry at the next scheduled time in `ts` (the schedule's length
models the retry policy's attempt budget); surface the final failure. -/
def composedExecute (handles : ErrKind → Bool) (opResult : Option ErrKind)
    (s : BreakerState) (t : Nat) (ts : List Nat) : ComposedRun :=
  match breakerExecute s t opResult with
  | (inv, none, s') => ⟨cond inv 1 0, none, s'⟩
  | (inv, some e, s') =>
    match ts with
    | [] => ⟨cond inv 1 0, some e, s'⟩
    | t' :: ts' =>
      if handles e then
        let rest := composedExecute handles opResult s' t' ts'
        ⟨cond inv 1 0 + rest.invocations, rest.result, rest.state⟩
      else
        ⟨cond inv 1 0, some e, s'⟩

/-- Number of operation invocations a run performs before — and including —
the attempt at which the breaker first reaches the open state; attempts made
against an open breaker inside the window invoke nothing and end the count. -/
def invocationsUntilOpen (opResult : Option ErrKind) :
    BreakerState → List Nat → Nat
  | _, [] => 0
  | s, t :: ts =>
    match breakerExecute s t opResult with
    | (inv, _, BreakerState.opened _) => cond inv 1 0
    | (inv, _, s') => cond inv 1 0 + invocationsUntilOpen opResult s' ts

theorem invocationsUntilOpen_le (e : ErrKind) (ts : List Nat) :
    ∀ f : Nat, f < breakerThreshold →
      invocationsUntilOpen (some e) (BreakerState.closed f) ts ≤
        breakerThreshold - f := by
  induction ts with
  | nil =>
    intro f hf
    simp [invocationsUntilOpen]
  | cons t ts ih =>
    intro f hf
    by_cases hthr : breakerThreshold ≤ f + 1
    · simp only [invocationsUntilOpen, breakerExecute, if_pos hthr, cond_true]
      simp only [breakerThreshold] at hf ⊢
      omega
    · simp only [invocationsUntilOpen, breakerExecute, if_neg hthr, cond_true]
      have hrec := ih (f + 1) (by omega)
      omega

/-- C9: with an always-failing operation the composed policy invokes the
underlying operation at most 5 times (the ConsecutiveBreaker threshold)
before the breaker opens; and while the breaker is open within its
10-second cool-down window, every invocation attempted against it completes
immediately with a broken-circuit failure without the operation being
invoked at all. -/
theorem breaker_opens_after_five :
    (∀ (e : ErrKind) (ts : List Nat),
      invocationsUntilOpen (some e) (BreakerState.closed 0) ts ≤
        breakerThreshold) ∧
    (∀ (t0 now : Nat) (opResult : Option ErrKind),
      now < t0 + breakerHalfOpenAfter →
      breakerExecute (BreakerState.opened t0) now opResult =
        (false, some ErrKind.brokenCircuit, BreakerState.opened t0)) := by
  constructor
  · intro e ts
    have h := invocationsUntilOpen_le e ts 0 (by decide)
    simpa using h
  · intro t0 now opResult hw
    simp [breakerExecute, hw]

/-- Witness for C9: six scheduled failing attempts stay within 5 invocations,
and a call against a breaker opened at time 0, made at time 5000 (inside the
10-second window), is rejected without invoking the operation. -/
theorem breaker_opens_after_five_witness :
    invocationsUntilOpen (some ErrKind.deviceNotReachable)
        (BreakerState.closed 0) [0, 1, 2, 3, 4, 5] ≤ breakerThreshold ∧
      ((5000 : Nat) < 0 + breakerHalfOpenAfter ∧
        breakerExecute (BreakerState.opened 0) 5000
            (some ErrKind.deviceNotReachable) =
          (false, some ErrKind.brokenCircuit, BreakerState.opened 0)) :=
  ⟨breaker_opens_after_five.1 ErrKind.deviceNotReachable [0, 1, 2, 3, 4, 5],
    by decide,
    breaker_opens_after_five.2 0 5000 (some ErrKind.deviceNotReachable)
      (by decide)⟩

/-- C3 counterexample: an operation failing with InvalidTypeError on every
invocation is retried by the composed policy — across the schedule
0,1,2,3,4,5 it is invoked 5 times (until the breaker opens), not surfaced
after a single invocation — because `Policy.handleAll()` puts every error
kind, InvalidTypeError included, in the retryable set. -/
theorem invalid_type_retried :
    (composedExecute handleAll (some ErrKind.invalidType)
          (BreakerState.closed 0) 0 [1, 2, 3, 4, 5]).invocations = 5 ∧
      handleAll ErrKind.invalidType = true := by
  refine ⟨by decide, rfl⟩

theorem composed_invokes_from_closed (e : ErrKind) (f t : Nat)
    (ts : List Nat) :
    1 ≤ (composedExecute handleAll (some e)
      (BreakerState.closed f) t ts).invocations := by
  have hbe : ∃ s', breakerExecute (BreakerState.closed f) t (some e) =
      (true, some e, s') := by
    by_cases hthr : breakerThreshold ≤ f + 1
    · exact ⟨BreakerState.opened t, by simp [breakerExecute, hthr]⟩
    · exact ⟨BreakerState.closed (f + 1), by simp [breakerExecute, hthr]⟩
  obtain ⟨s', hbe⟩ := hbe
  rw [composedExecute.eq_def, hbe]
  cases ts with
  | nil => simp
  | cons t' ts' => simp [handleAll]

/-- C3 (amended): the retry policy is built with `Policy.handleAll()`, so
every error kind — InvalidTypeError included — is in the retryable set; an
operation failing with InvalidTypeError under the composed
retry-with-breaker policy is invoked again on retry (at least twice whenever
the schedule allows a retry) rather than surfaced immediately. -/
theorem retry_handles_all_errors :
    (∀ e : ErrKind, handleAll e = true) ∧
    (∀ (t t' : Nat) (ts : List Nat),
      2 ≤ (composedExecute handleAll (some ErrKind.invalidType)
        (BreakerState.closed 0) t (t' :: ts)).invocations) := by
  constructor
  · intro e
    rfl
  · intro t t' ts
    have h2 := composed_invokes_from_closed ErrKind.invalidType 1 t' ts
    have hbe : breakerExecute (BreakerState.closed 0) t
        (some ErrKind.invalidType) =
        (true, some ErrKind.invalidType, BreakerState.closed 1) := by
      simp [breakerExecute, breakerThreshold]
    rw [composedExecute.eq_def, hbe]
    simp only [handleAll, if_true, cond_true]
    omega

/-- The query parameters of an inbound callback request; `none` models a
parameter entirely absent from the query string, `some ""` one that is
present but empty. -/
structure CallbackRequest where
  mac : Option String
  action : Option String
  button : Option String
  deriving DecidableEq, Repr

/-- JavaScript `x || y` on strings: the empty string is falsy. -/
def jsOrString (v dflt : String) : String :=
  if v = "" then dflt else v

/-- The response-end callback of `handleRequest`: when `mac`, `action` and
`button` are all present, emits one BTN_PRESS event passing positionally
`(mac, button, action)` — with `p.get(...) || ...` defaults, so a present
but empty `action` becomes "1"; otherwise emits nothing.  Returns the list
of events emitted on the bus. -/
def handleRequest (req : CallbackRequest) : List EBEvent :=
  match req.mac, req.action, req.button with
  | some m, some a, some b =>
    [EBEvent.btnPress (jsOrString m "") (jsOrString b "") (jsOrString a "1")]
  | _, _, _ => []

/-- A subscriber's view of a BTN_PRESS event under the Event Bus's declared
`on(BTN_PRESS, (mac, action, button) => ...)` overload: the listener's
parameters bind to the emitted arguments positionally. -/
structure BtnPressListenerArgs where
  mac : String
  action : String
  button : String
  deriving DecidableEq, Repr

/-- Binds a published event to the declared BTN_PRESS listener signature. -/
def btnPressListenerView : EBEvent → Option BtnPressListenerArgs
  | EBEvent.btnPress p1 p2 p3 => some ⟨p1, p2, p3⟩
  | _ => none

/-- C8: a request with `mac`, `action` and `button` all present publishes
exactly one device-action event carrying the parsed values; a request
missing any of the three (including `action` absent while the other two are
present) publishes none; only an `action` present but empty defaults
to "1". -/
theorem callback_parameter_completeness :
    (∀ req : CallbackRequest,
      req.mac = none ∨ req.action = none ∨ req.button = none →
      handleRequest req = []) ∧
    (∀ m a b : String, m ≠ "" → a ≠ "" → b ≠ "" →
      handleRequest ⟨some m, some a, some b⟩ = [EBEvent.btnPress m b a]) ∧
    (∀ m b : String, m ≠ "" → b ≠ "" →
      handleRequest ⟨some m, some "", some b⟩ =
        [EBEvent.btnPress m b "1"]) := by
  refine ⟨?_, ?_, ?_⟩
  · intro req h
    obtain ⟨mm, aa, bb⟩ := req
    rcases h with h | h | h
    · subst h; cases aa <;> cases bb <;> rfl
    · subst h; cases mm <;> cases bb <;> rfl
    · subst h; cases mm <;> cases aa <;> rfl
  · intro m a b hm ha hb
    simp [handleRequest, jsOrString, hm, ha, hb]
  · intro m b hm hb
    simp [handleRequest, jsOrString, hm, hb]

/-- Witness for C8: a request missing `button` publishes nothing; a full
request publishes one event with the parsed values; an empty `action`
defaults to "1". -/
theorem callback_parameter_completeness_witness :
    handleRequest ⟨some "AABBCCDDEEFF", some "2", none⟩ = [] ∧
      handleRequest ⟨some "AABBCCDDEEFF", some "2", some "1"⟩ =
        [EBEvent.btnPress "AABBCCDDEEFF" "1" "2"] ∧
      handleRequest ⟨some "AABBCCDDEEFF", some "", some "1"⟩ =
        [EBEvent.btnPress "AABBCCDDEEFF" "1" "1"] :=
  ⟨callback_parameter_completeness.1 ⟨some "AABBCCDDEEFF", some "2", none⟩
      (Or.inr (Or.inr rfl)),
    callback_parameter_completeness.2.1 "AABBCCDDEEFF" "2" "1" (by decide)
      (by decide) (by decide),
    callback_parameter_completeness.2.2 "AABBCCDDEEFF" "1" (by decide)
      (by decide)⟩

/-- C10: `handleRequest` emits `(mac, button, action)` positionally while
the Event Bus declares the BTN_PRESS listener as `(mac, action, button)`,
so a subscriber conforming to the declared signature receives the button
identifier in its `action` parameter and the action code in its `button`
parameter. -/
theorem btn_press_arguments_swapped (m a b : String)
    (hm : m ≠ "") (ha : a ≠ "") (hb : b ≠ "") :
    (handleRequest ⟨some m, some a, some b⟩).map btnPressListenerView =
      [some ⟨m, b, a⟩] := by
  simp [handleRequest, btnPressListenerView, jsOrString, hm, ha, hb]

/-- Witness for C10: the query parameters action "1", button "2" reach the
declared-signature listener as action "2", button "1". -/
theorem btn_press_arguments_swapped_witness :
    (("AABBCCDDEEFF" : String) ≠ "" ∧ ("1" : String) ≠ "" ∧
        ("2" : String) ≠ "") ∧
      (handleRequest
          ⟨some "AABBCCDDEEFF", some "1", some "2"⟩).map btnPressListenerView
        = [some ⟨"AABBCCDDEEFF", "2", "1"⟩] :=
  ⟨⟨by decide, by decide, by decide⟩,
    btn_press_arguments_swapped "AABBCCDDEEFF" "1" "2" (by decide)
      (by decide) (by decide)⟩
